import Mathlib

set_option autoImplicit false
set_option maxRecDepth 8192

/-!
Verification of the Milka inpainting gateway backend.

This file gives a shallow embedding of the request-validation and
rate-limiting logic of the backend (backend/app/middleware.py,
backend/app/security.py, backend/app/inbound_validation.py,
backend/app/services/image_processor.py,
backend/app/services/nanobobana_client.py, backend/app/api/inpaint.py)
and proves the specification's testable properties about it.

Python floats are embedded as rationals, byte strings as lists of
naturals, and text as Lean strings.  Fallible validators return
Except values mirroring the raised exceptions of the source.
-/

namespace Milka

/-! ## Token bucket rate limiter (middleware.py, class TokenBucketRateLimit)

The Python object holds capacity (int), refill_rate (float), tokens
(float) and a last_refill timestamp.  We embed the float fields as
rationals and replace the timestamp by an explicit elapsed-time
argument to consume, which is how the timestamp is used. -/

structure TokenBucketRateLimit where
  capacity : ℕ
  refill_rate : ℚ
  tokens : ℚ
  deriving Repr, DecidableEq

/-- Constructor semantics of TokenBucketRateLimit.__init__: the bucket
starts full, tokens = capacity. -/
def TokenBucketRateLimit.fresh (capacity : ℕ) (refill_rate : ℚ) : TokenBucketRateLimit :=
  { capacity := capacity, refill_rate := refill_rate, tokens := capacity }

/-- The refilled token count computed at the start of consume:
min(capacity, tokens + time_passed * refill_rate). -/
def TokenBucketRateLimit.refilled (b : TokenBucketRateLimit) (elapsed : ℚ) : ℚ :=
  min (b.capacity : ℚ) (b.tokens + elapsed * b.refill_rate)

/-- TokenBucketRateLimit.consume: refill from elapsed time, then if at
least the requested number of tokens is available subtract it and
return true, else return false leaving the refilled count in place. -/
def TokenBucketRateLimit.consume (b : TokenBucketRateLimit) (elapsed : ℚ) (n : ℕ) :
    Bool × TokenBucketRateLimit :=
  let refilled := min (b.capacity : ℚ) (b.tokens + elapsed * b.refill_rate)
  if (n : ℚ) ≤ refilled then
    (true, { b with tokens := refilled - n })
  else
    (false, { b with tokens := refilled })

/-- Iterate consume(1) with zero elapsed time k times, keeping the state. -/
def TokenBucketRateLimit.runZero (b : TokenBucketRateLimit) : ℕ → TokenBucketRateLimit
  | 0 => b
  | k + 1 => ((TokenBucketRateLimit.runZero b k).consume 0 1).2

/-- Outcome of the (k+1)-st consume(1) call (zero elapsed time throughout). -/
def TokenBucketRateLimit.nthCall (b : TokenBucketRateLimit) (k : ℕ) : Bool :=
  ((b.runZero k).consume 0 1).1

theorem consume_capacity_const (b : TokenBucketRateLimit) (elapsed : ℚ) (n : ℕ) :
    ((b.consume elapsed n).2).capacity = b.capacity := by
  simp only [TokenBucketRateLimit.consume]
  split <;> rfl

theorem consume_rate_const (b : TokenBucketRateLimit) (elapsed : ℚ) (n : ℕ) :
    ((b.consume elapsed n).2).refill_rate = b.refill_rate := by
  simp only [TokenBucketRateLimit.consume]
  split <;> rfl

theorem runZero_tokens (C : ℕ) (r : ℚ) (k : ℕ) :
    ((TokenBucketRateLimit.fresh C r).runZero k).tokens = ((C - min k C : ℕ) : ℚ) ∧
    ((TokenBucketRateLimit.fresh C r).runZero k).capacity = C := by
  induction k with
  | zero =>
      constructor
      · simp [TokenBucketRateLimit.runZero, TokenBucketRateLimit.fresh]
      · rfl
  | succ k ih =>
      obtain ⟨htok, hcap⟩ := ih
      constructor
      · show (((TokenBucketRateLimit.fresh C r).runZero k).consume 0 1).2.tokens = _
        simp only [TokenBucketRateLimit.consume, htok, hcap, zero_mul, add_zero]
        have hle : ((C - min k C : ℕ) : ℚ) ≤ (C : ℚ) := by
          exact_mod_cast Nat.cast_le.mpr (Nat.sub_le _ _)
        rw [min_eq_right hle]
        by_cases hk : k < C
        · have h1 : (((1 : ℕ) : ℚ)) ≤ ((C - min k C : ℕ) : ℚ) := by
            have : 1 ≤ C - min k C := by omega
            exact_mod_cast this
          rw [if_pos h1]
          have h1n : 1 ≤ C - min k C := by omega
          have e : C - min (k + 1) C = (C - min k C) - 1 := by omega
          simp only [e, Nat.cast_sub h1n, Nat.cast_one]
        · have hz : C - min k C = 0 := by omega
          have h1 : ¬ ((((1 : ℕ) : ℚ)) ≤ ((C - min k C : ℕ) : ℚ)) := by
            rw [hz]; norm_num
          rw [if_neg h1]
          have e : C - min (k + 1) C = 0 := by omega
          simp [hz, e]
      · show (((TokenBucketRateLimit.fresh C r).runZero k).consume 0 1).2.capacity = C
        rw [consume_capacity_const, hcap]

/-- Claim C1: on a fresh token bucket of capacity C ≥ 1, with zero
elapsed time between calls, consume(1) returns true for exactly the
first C calls and false afterwards; and in general consume(n) returns
true and subtracts n exactly when at least n tokens remain after the
refill, otherwise it returns false and keeps the refilled count. -/
theorem consume_exact_capacity (C : ℕ) (r : ℚ) (hC : 1 ≤ C) (k : ℕ) :
    (TokenBucketRateLimit.nthCall (TokenBucketRateLimit.fresh C r) k = decide (k < C)) ∧
    (∀ (b : TokenBucketRateLimit) (elapsed : ℚ) (n : ℕ),
      ((b.consume elapsed n).1 = true ↔ (n : ℚ) ≤ b.refilled elapsed) ∧
      ((b.consume elapsed n).1 = true →
        ((b.consume elapsed n).2).tokens = b.refilled elapsed - n) ∧
      ((b.consume elapsed n).1 = false →
        ((b.consume elapsed n).2).tokens = b.refilled elapsed)) := by
  constructor
  · obtain ⟨htok, hcap⟩ := runZero_tokens C r k
    simp only [TokenBucketRateLimit.nthCall, TokenBucketRateLimit.consume, htok, hcap,
      zero_mul, add_zero]
    have hle : ((C - min k C : ℕ) : ℚ) ≤ (C : ℚ) := by
      exact_mod_cast Nat.cast_le.mpr (Nat.sub_le _ _)
    rw [min_eq_right hle]
    by_cases hk : k < C
    · have h1 : ((1 : ℕ) : ℚ) ≤ ((C - min k C : ℕ) : ℚ) := by
        have : 1 ≤ C - min k C := by omega
        exact_mod_cast this
      rw [if_pos h1]
      simp [hk]
    · have hz : C - min k C = 0 := by omega
      have h1 : ¬ (((1 : ℕ) : ℚ) ≤ ((C - min k C : ℕ) : ℚ)) := by
        rw [hz]; norm_num
      rw [if_neg h1]
      simp [hk]
  · intro b elapsed n
    simp only [TokenBucketRateLimit.consume, TokenBucketRateLimit.refilled]
    by_cases h : (n : ℚ) ≤ min (b.capacity : ℚ) (b.tokens + elapsed * b.refill_rate)
    · rw [if_pos h]
      refine ⟨by simp [h], by intro _; rfl, by simp⟩
    · rw [if_neg h]
      refine ⟨by simp [h], by simp, by intro _; rfl⟩

theorem consume_exact_capacity_witness :
    (1 ≤ 3) ∧
    (TokenBucketRateLimit.nthCall (TokenBucketRateLimit.fresh 3 1) 2 = decide (2 < 3)) ∧
    (TokenBucketRateLimit.nthCall (TokenBucketRateLimit.fresh 3 1) 3 = decide (3 < 3)) :=
  ⟨by norm_num,
   (consume_exact_capacity 3 1 (by norm_num) 2).1,
   (consume_exact_capacity 3 1 (by norm_num) 3).1⟩

/-- Claim C2: consume keeps the token count inside [0, capacity]
whenever it starts there, for any nonnegative elapsed time, any
nonnegative refill rate and any requested count n ≥ 1: the refill never
pushes tokens above capacity and consumption never drives them below
zero. -/
theorem consume_token_bounds (b : TokenBucketRateLimit) (elapsed : ℚ) (n : ℕ)
    (h0 : 0 ≤ b.tokens) (h1 : b.tokens ≤ (b.capacity : ℚ))
    (he : 0 ≤ elapsed) (hr : 0 ≤ b.refill_rate) (hn : 1 ≤ n) :
    0 ≤ ((b.consume elapsed n).2).tokens ∧
    ((b.consume elapsed n).2).tokens ≤ (((b.consume elapsed n).2).capacity : ℚ) := by
  have hcap := consume_capacity_const b elapsed n
  have hrefl : 0 ≤ min (b.capacity : ℚ) (b.tokens + elapsed * b.refill_rate) := by
    apply le_min
    · positivity
    · have : 0 ≤ elapsed * b.refill_rate := mul_nonneg he hr
      linarith
  have hrefr : min (b.capacity : ℚ) (b.tokens + elapsed * b.refill_rate) ≤ (b.capacity : ℚ) :=
    min_le_left _ _
  unfold TokenBucketRateLimit.consume
  by_cases h : (n : ℚ) ≤ min (b.capacity : ℚ) (b.tokens + elapsed * b.refill_rate)
  · rw [if_pos h]
    constructor
    · simp only
      linarith
    · simp only
      have hn0 : (0 : ℚ) ≤ (n : ℚ) := by positivity
      calc min (b.capacity : ℚ) (b.tokens + elapsed * b.refill_rate) - (n : ℚ)
          ≤ min (b.capacity : ℚ) (b.tokens + elapsed * b.refill_rate) := by linarith
        _ ≤ (b.capacity : ℚ) := hrefr
  · rw [if_neg h]
    exact ⟨hrefl, hrefr⟩

theorem consume_token_bounds_witness :
    (0 : ℚ) ≤ (({ capacity := 5, refill_rate := 1, tokens := 2 } :
        TokenBucketRateLimit).consume 1 1).2.tokens ∧
    (({ capacity := 5, refill_rate := 1, tokens := 2 } :
        TokenBucketRateLimit).consume 1 1).2.tokens ≤
      ((({ capacity := 5, refill_rate := 1, tokens := 2 } :
        TokenBucketRateLimit).consume 1 1).2.capacity : ℚ) :=
  consume_token_bounds { capacity := 5, refill_rate := 1, tokens := 2 } 1 1
    (by norm_num) (by norm_num) (by norm_num) (by norm_num) (by norm_num)

/-! ## Python string primitives

str.strip() removes leading and trailing whitespace, where whitespace
is the set of characters for which str.isspace() holds (the ASCII
whitespace characters 0x09-0x0D, the separators 0x1C-0x1F, the space,
and the Unicode space characters). -/

/-- Python str.isspace on a single character. -/
def pyIsSpace (c : Char) : Bool :=
  let n := c.toNat
  decide ((9 ≤ n ∧ n ≤ 13) ∨ (28 ≤ n ∧ n ≤ 32) ∨ n = 133 ∨ n = 160 ∨ n = 5760 ∨
    (8192 ≤ n ∧ n ≤ 8202) ∨ n = 8232 ∨ n = 8233 ∨ n = 8239 ∨ n = 8287 ∨ n = 12288)

/-- Python str.strip() on the underlying character list: drop whitespace
from the front, then from the back. -/
def pyStripList (l : List Char) : List Char :=
  List.rdropWhile pyIsSpace (List.dropWhile pyIsSpace l)

/-- Python str.strip(). -/
def pyStrip (s : String) : String :=
  ⟨pyStripList s.data⟩

theorem mem_dropWhile_of_pred_false {α : Type} (p : α → Bool) (c : α) :
    ∀ l : List α, c ∈ l → p c = false → c ∈ l.dropWhile p := by
  intro l hm hc
  induction l with
  | nil => cases hm
  | cons a t ih =>
      by_cases ha : p a = true
      · rw [List.dropWhile_cons_of_pos ha]
        rcases List.mem_cons.mp hm with h | h
        · subst h; rw [hc] at ha; cases ha
        · exact ih h
      · rw [List.dropWhile_cons_of_neg ha]
        exact hm

theorem mem_pyStripList (c : Char) (l : List Char)
    (hc : pyIsSpace c = false) (hm : c ∈ l) : c ∈ pyStripList l := by
  unfold pyStripList List.rdropWhile
  rw [List.mem_reverse]
  apply mem_dropWhile_of_pred_false _ _ _ _ hc
  rw [List.mem_reverse]
  exact mem_dropWhile_of_pred_false _ _ _ hm hc

theorem pyStripList_idem (l : List Char) : pyStripList (pyStripList l) = pyStripList l := by
  unfold pyStripList
  have hm_self : List.dropWhile pyIsSpace (List.dropWhile pyIsSpace l) =
      List.dropWhile pyIsSpace l := List.dropWhile_idempotent _ _
  have hsplit :
      List.rdropWhile pyIsSpace (List.dropWhile pyIsSpace l) ++
        (List.takeWhile pyIsSpace (List.dropWhile pyIsSpace l).reverse).reverse =
        List.dropWhile pyIsSpace l := by
    unfold List.rdropWhile
    rw [← List.reverse_append, List.takeWhile_append_dropWhile, List.reverse_reverse]
  have hr : List.dropWhile pyIsSpace
      (List.rdropWhile pyIsSpace (List.dropWhile pyIsSpace l)) =
      List.rdropWhile pyIsSpace (List.dropWhile pyIsSpace l) := by
    rw [List.dropWhile_eq_self_iff]
    intro hl
    have hmprop := (List.dropWhile_eq_self_iff).mp hm_self
    have hlen : 0 < (List.dropWhile pyIsSpace l).length := by
      rw [← hsplit, List.length_append]
      omega
    have hget : (List.dropWhile pyIsSpace l).get ⟨0, hlen⟩ =
        (List.rdropWhile pyIsSpace (List.dropWhile pyIsSpace l)).get ⟨0, hl⟩ := by
      have hcast := List.get_of_eq hsplit.symm ⟨0, hlen⟩
      rw [hcast, List.get_append]
    intro hp
    exact hmprop hlen (hget ▸ hp)
  rw [hr, List.rdropWhile_idempotent]

theorem pyStrip_idem (s : String) : pyStrip (pyStrip s) = pyStrip s := by
  show (⟨pyStripList (pyStripList s.data)⟩ : String) = ⟨pyStripList s.data⟩
  rw [pyStripList_idem]

theorem pyStrip_toList (s : String) : (pyStrip s).data = pyStripList s.data := rfl

/-! ## Prompt validation (security.py, validate_prompt)

InputValidationError is an HTTPException with status 422 carrying a
detail message and an optional field tag. -/

structure InputValidationError where
  detail : String
  field : Option String
  deriving Repr, DecidableEq

/-- The control characters rejected by validate_prompt:
0x00-0x08, 0x0B, 0x0C, 0x0E-0x1F, 0x7F. -/
def promptCtrlChar (c : Char) : Bool :=
  let n := c.toNat
  decide (n ≤ 8 ∨ n = 11 ∨ n = 12 ∨ (14 ≤ n ∧ n ≤ 31) ∨ n = 127)

/-- validate_prompt: reject empty or whitespace-only input, then work on
the stripped prompt; reject it when longer than 500 characters or when
it contains one of the control characters above; otherwise return it.
The suspicious-pattern scan of the source only logs and does not affect
the result, so it does not appear in the value semantics. -/
def validate_prompt (prompt : String) : Except InputValidationError String :=
  if pyStrip prompt = "" then
    .error ⟨"Prompt cannot be empty", some "prompt"⟩
  else if 500 < (pyStrip prompt).length then
    .error ⟨"Prompt too long: " ++ toString (pyStrip prompt).length ++ " characters (max 500)",
      some "prompt"⟩
  else if (pyStrip prompt).data.any promptCtrlChar then
    .error ⟨"Prompt contains invalid control characters", some "prompt"⟩
  else
    .ok (pyStrip prompt)

/-- A 501-character input whose first character is a space. -/
def prompt501 : String :=
  ⟨' ' :: List.replicate 500 'a'⟩

/-- Claim C4 counterexample: the claim says validate_prompt rejects any
501-character string, but a 501-character string with a leading space
trims to 500 characters and is accepted. -/
theorem validate_prompt_accepts_501 :
    prompt501.length = 501 ∧ (validate_prompt prompt501).isOk = true ∧
    validate_prompt prompt501 = .ok ⟨List.replicate 500 'a'⟩ :=
  ⟨rfl, rfl, rfl⟩

/-- Claim C4 (amended): validate_prompt fails exactly when the stripped
prompt is empty, longer than 500 characters, or contains one of the
control characters 0x00-0x08, 0x0B, 0x0C, 0x0E-0x1F, 0x7F; on success
it returns the stripped prompt; any input containing 0x07 is rejected;
and every 500-character string of graphic ASCII characters is
accepted. -/
theorem validate_prompt_spec (p : String) :
    ((validate_prompt p).isOk = false ↔
      pyStrip p = "" ∨ 500 < (pyStrip p).length ∨ (pyStrip p).data.any promptCtrlChar = true) ∧
    (∀ r, validate_prompt p = .ok r → r = pyStrip p) ∧
    ('\x07' ∈ p.data → (validate_prompt p).isOk = false) ∧
    (p.length = 500 → (∀ c ∈ p.data, 33 ≤ c.toNat ∧ c.toNat ≤ 126) →
      (validate_prompt p).isOk = true) := by
  have hmain : (validate_prompt p).isOk = false ↔
      pyStrip p = "" ∨ 500 < (pyStrip p).length ∨ (pyStrip p).data.any promptCtrlChar = true := by
    unfold validate_prompt
    by_cases h1 : pyStrip p = ""
    · simp [h1, Except.isOk, Except.toBool]
    · by_cases h2 : 500 < (pyStrip p).length
      · simp [h1, h2, Except.isOk, Except.toBool]
      · by_cases h3 : (pyStrip p).data.any promptCtrlChar
        · simp [h1, h2, h3, Except.isOk, Except.toBool]
        · simp [h1, h2, h3, Except.isOk, Except.toBool]
  refine ⟨hmain, ?_, ?_, ?_⟩
  · intro r hr
    unfold validate_prompt at hr
    by_cases h1 : pyStrip p = ""
    · simp [h1] at hr
    · by_cases h2 : 500 < (pyStrip p).length
      · simp [h1, h2] at hr
      · by_cases h3 : (pyStrip p).data.any promptCtrlChar
        · simp [h1, h2, h3] at hr
        · simp [h1, h2, h3] at hr
          exact hr.symm
  · intro hmem
    rw [hmain]
    by_cases h1 : pyStrip p = ""
    · exact Or.inl h1
    · refine Or.inr (Or.inr ?_)
      rw [List.any_eq_true]
      refine ⟨'\x07', ?_, by decide⟩
      rw [pyStrip_toList]
      exact mem_pyStripList _ _ (by decide) hmem
  · intro hlen hgraph
    have hnosp : ∀ c ∈ p.data, pyIsSpace c = false := by
      intro c hc
      obtain ⟨hlo, hhi⟩ := hgraph c hc
      unfold pyIsSpace
      simp only [decide_eq_false_iff_not]
      omega
    have hstrip : pyStrip p = p := by
      show (⟨pyStripList p.data⟩ : String) = p
      have hdrop : List.dropWhile pyIsSpace p.data = p.data := by
        rw [List.dropWhile_eq_self_iff]
        intro hl
        rw [hnosp _ (List.get_mem _ _ _)]
        simp
      have hrdrop : List.rdropWhile pyIsSpace p.data = p.data := by
        rw [List.rdropWhile_eq_self_iff]
        intro hl
        rw [hnosp _ (List.getLast_mem hl)]
        simp
      show (⟨List.rdropWhile pyIsSpace (List.dropWhile pyIsSpace p.data)⟩ : String) = p
      rw [hdrop, hrdrop]
    have hne : p ≠ "" := by
      intro h
      rw [h] at hlen
      simp [String.length] at hlen
    have hctrl : ¬ (p.data.any promptCtrlChar = true) := by
      rw [List.any_eq_true]
      rintro ⟨c, hc, hcc⟩
      obtain ⟨hlo, hhi⟩ := hgraph c hc
      unfold promptCtrlChar at hcc
      simp only [decide_eq_true_eq] at hcc
      omega
    unfold validate_prompt
    rw [hstrip]
    have h2 : ¬ (500 < p.length) := by omega
    simp [hne, h2, hctrl, Except.isOk, Except.toBool]

theorem validate_prompt_spec_witness :
    (('\x07' ∈ ("ab\x07cd" : String).data) ∧ (validate_prompt "ab\x07cd").isOk = false) ∧
    ((⟨List.replicate 500 'a'⟩ : String).length = 500 ∧
      (validate_prompt ⟨List.replicate 500 'a'⟩).isOk = true) :=
  ⟨⟨by decide, (validate_prompt_spec "ab\x07cd").2.2.1 (by decide)⟩,
   ⟨rfl, (validate_prompt_spec ⟨List.replicate 500 'a'⟩).2.2.2 rfl (by decide)⟩⟩

/-- Claim C9: validate_prompt is idempotent on its accepted domain: a
successful result is the stripped input, and validating the result
again succeeds and returns it unchanged. -/
theorem validate_prompt_idem (p r : String) (h : validate_prompt p = .ok r) :
    r = pyStrip p ∧ validate_prompt r = .ok r := by
  unfold validate_prompt at h
  by_cases h1 : pyStrip p = ""
  · simp [h1] at h
  · by_cases h2 : 500 < (pyStrip p).length
    · simp [h1, h2] at h
    · by_cases h3 : (pyStrip p).data.any promptCtrlChar
      · simp [h1, h2, h3] at h
      · simp [h1, h2, h3] at h
        subst h
        refine ⟨rfl, ?_⟩
        unfold validate_prompt
        rw [pyStrip_idem]
        simp [h1, h2, h3]

theorem validate_prompt_idem_witness :
    ("hi" : String) = pyStrip "  hi  " ∧ validate_prompt "hi" = .ok "hi" :=
  validate_prompt_idem "  hi  " "hi" rfl

/-! ## Filename sanitization (security.py, sanitize_filename)

The source pipeline is: os.path.basename, replacement of the dangerous
characters by underscore, removal of the control/DEL-range characters,
length truncation via os.path.splitext, and a final placeholder
substitution.  The posixpath behaviour of basename and splitext is
embedded below. -/

/-- The characters replaced by an underscore. -/
def dangerChar (c : Char) : Bool :=
  decide (c = '<' ∨ c = '>' ∨ c = ':' ∨ c = '"' ∨ c = '/' ∨ c = '\\' ∨ c = '|' ∨
    c = '?' ∨ c = '*')

/-- The removed control and DEL-range characters 0x00-0x1F and 0x7F-0x9F. -/
def ctrlRangeChar (c : Char) : Bool :=
  let n := c.toNat
  decide (n ≤ 31 ∨ (127 ≤ n ∧ n ≤ 159))

/-- posixpath.basename: the part after the last slash. -/
def pyBasename (l : List Char) : List Char :=
  (l.reverse.takeWhile (fun c => c != '/')).reverse

/-- Python str.rfind for a single character: the index of the last
occurrence, or -1 if absent. -/
def pyRfind (l : List Char) (c : Char) : Int :=
  match l.reverse.findIdx? (fun x => x == c) with
  | none => -1
  | some i => (l.length : Int) - 1 - i

/-- posixpath.splitext: split off the extension at the last dot,
provided a non-dot character stands between the last slash and that
dot; otherwise the extension is empty. -/
def pySplitext (l : List Char) : List Char × List Char :=
  let sepIdx := pyRfind l '/'
  let dotIdx := pyRfind l '.'
  if sepIdx < dotIdx then
    if (List.range l.length).any
        (fun j => decide (sepIdx < (j : Int) ∧ (j : Int) < dotIdx ∧ l.getD j '.' ≠ '.')) then
      (l.take dotIdx.toNat, l.drop dotIdx.toNat)
    else (l, [])
  else (l, [])

/-- Python slicing a[:k] for an Int bound k (a negative bound counts
from the end). -/
def pySliceTo (l : List Char) (k : Int) : List Char :=
  if 0 ≤ k then l.take k.toNat else l.take (l.length - (-k).toNat)

/-- Stage of sanitize_filename before truncation: basename, dangerous
characters to underscore, control characters removed. -/
def sanitizeCore (s : String) : List Char :=
  ((pyBasename s.data).map (fun c => if dangerChar c then '_' else c)).filter
    (fun c => !(ctrlRangeChar c))

/-- Truncation stage of sanitize_filename: if longer than 255, keep
name[:255-len(ext)] ++ ext. -/
def sanitizeTrunc (s : String) : List Char :=
  let l2 := sanitizeCore s
  if 255 < l2.length then
    pySliceTo (pySplitext l2).1 (255 - ((pySplitext l2).2.length : Int)) ++ (pySplitext l2).2
  else l2

/-- sanitize_filename: the full pipeline with the final placeholder
substitution for an empty result or a bare dot or dot-dot. -/
def sanitize_filename (filename : String) : String :=
  if filename = "" then "unnamed_file"
  else if (⟨sanitizeTrunc filename⟩ : String) = "" ∨ (⟨sanitizeTrunc filename⟩ : String) = "." ∨
      (⟨sanitizeTrunc filename⟩ : String) = ".." then "unnamed_file"
  else ⟨sanitizeTrunc filename⟩

theorem pySplitext_take_drop (l : List Char) :
    ∃ d, pySplitext l = (l.take d, l.drop d) := by
  unfold pySplitext
  by_cases h1 : pyRfind l '/' < pyRfind l '.'
  · rw [if_pos h1]
    by_cases h2 : (List.range l.length).any
        (fun j => decide (pyRfind l '/' < (j : Int) ∧ (j : Int) < pyRfind l '.' ∧
          l.getD j '.' ≠ '.')) = true
    · rw [if_pos h2]
      exact ⟨(pyRfind l '.').toNat, rfl⟩
    · rw [if_neg h2]
      exact ⟨l.length, by simp⟩
  · rw [if_neg h1]
    exact ⟨l.length, by simp⟩

theorem pySliceTo_take (l : List Char) (k : Int) :
    ∃ m, pySliceTo l k = l.take m := by
  unfold pySliceTo
  by_cases h : 0 ≤ k
  · rw [if_pos h]; exact ⟨k.toNat, rfl⟩
  · rw [if_neg h]; exact ⟨l.length - (-k).toNat, rfl⟩

theorem sanitizeCore_chars (s : String) :
    ∀ c ∈ sanitizeCore s, dangerChar c = false ∧ ctrlRangeChar c = false := by
  intro c hc
  unfold sanitizeCore at hc
  rw [List.mem_filter] at hc
  obtain ⟨hmap, hctrl⟩ := hc
  rw [List.mem_map] at hmap
  obtain ⟨a, _, ha⟩ := hmap
  constructor
  · by_cases hd : dangerChar a = true
    · rw [if_pos hd] at ha
      rw [← ha]; decide
    · rw [if_neg hd] at ha
      rw [← ha]
      exact Bool.eq_false_iff.mpr hd
  · simpa using hctrl

theorem sanitizeTrunc_sub (s : String) :
    ∀ c ∈ sanitizeTrunc s, c ∈ sanitizeCore s := by
  intro c hc
  unfold sanitizeTrunc at hc
  by_cases h : 255 < (sanitizeCore s).length
  · rw [if_pos h] at hc
    obtain ⟨d, hd⟩ := pySplitext_take_drop (sanitizeCore s)
    rw [hd] at hc
    rcases List.mem_append.mp hc with h1 | h2
    · obtain ⟨m, hm⟩ := pySliceTo_take ((sanitizeCore s).take d)
        (255 - (((sanitizeCore s).drop d).length : Int))
      rw [hm] at h1
      exact List.take_subset _ _ (List.take_subset _ _ h1)
    · exact List.drop_subset _ _ h2
  · rwa [if_neg h] at hc

theorem sanitizeTrunc_length (s : String)
    (hext : ((pySplitext (sanitizeCore s)).2).length ≤ 255) :
    (sanitizeTrunc s).length ≤ 255 := by
  simp only [sanitizeTrunc]
  by_cases h : 255 < (sanitizeCore s).length
  · rw [if_pos h, List.length_append]
    have hnn : (0 : Int) ≤ 255 - (((pySplitext (sanitizeCore s)).2).length : Int) := by omega
    have hslice : (pySliceTo (pySplitext (sanitizeCore s)).1
        (255 - (((pySplitext (sanitizeCore s)).2).length : Int))).length ≤
        255 - ((pySplitext (sanitizeCore s)).2).length := by
      unfold pySliceTo
      rw [if_pos hnn]
      have ht : ((255 : Int) - (((pySplitext (sanitizeCore s)).2).length : Int)).toNat =
          255 - ((pySplitext (sanitizeCore s)).2).length := by omega
      rw [ht, List.length_take]
      omega
    omega
  · rw [if_neg h]
    omega

/-- Claim C7 counterexample: the claim says the placeholder is
substituted whenever the result consists only of dots, but a
three-dot filename passes the final check unchanged: only ".", ".."
and the empty string are replaced. -/
theorem sanitize_filename_dots :
    sanitize_filename "..." = "..." ∧ ("..." : String) ≠ "unnamed_file" ∧
    (∀ c ∈ ("..." : String).data, c = '.') :=
  ⟨rfl, by decide, by decide⟩

/-- Claim C7 (amended): sanitize_filename never returns a path
separator or a dangerous or control character, never returns "", "."
or "..", bounds the length by 255 whenever the split-off extension is
itself at most 255 characters, and maps "../../etc/passwd" to the
separator-free name "passwd"; the placeholder is substituted exactly
for results that are empty, "." or "..". -/
theorem sanitize_filename_spec (s : String)
    (hext : ((pySplitext (sanitizeCore s)).2).length ≤ 255) :
    (∀ c ∈ (sanitize_filename s).data,
      c ≠ '/' ∧ c ≠ '\\' ∧ dangerChar c = false ∧ ctrlRangeChar c = false) ∧
    sanitize_filename s ≠ "" ∧ sanitize_filename s ≠ "." ∧ sanitize_filename s ≠ ".." ∧
    (sanitize_filename s).length ≤ 255 ∧
    sanitize_filename "../../etc/passwd" = "passwd" := by
  by_cases h0 : s = ""
  · subst h0
    exact ⟨by decide, by decide, by decide, by decide, by decide, rfl⟩
  · unfold sanitize_filename
    rw [if_neg h0]
    by_cases hg : (⟨sanitizeTrunc s⟩ : String) = "" ∨ (⟨sanitizeTrunc s⟩ : String) = "." ∨
        (⟨sanitizeTrunc s⟩ : String) = ".."
    · rw [if_pos hg]
      exact ⟨by decide, by decide, by decide, by decide, by decide, rfl⟩
    · rw [if_neg hg]
      push_neg at hg
      obtain ⟨hg1, hg2, hg3⟩ := hg
      refine ⟨?_, hg1, hg2, hg3, ?_, rfl⟩
      · intro c hc
        have hsub : c ∈ sanitizeCore s := sanitizeTrunc_sub s c hc
        have hd := (sanitizeCore_chars s c hsub).1
        have hcr := (sanitizeCore_chars s c hsub).2
        refine ⟨?_, ?_, hd, hcr⟩
        · intro he; rw [he] at hd; exact absurd hd (by decide)
        · intro he; rw [he] at hd; exact absurd hd (by decide)
      · show (sanitizeTrunc s).length ≤ 255
        exact sanitizeTrunc_length s hext

theorem sanitize_filename_spec_witness :
    (((pySplitext (sanitizeCore "a.txt")).2).length ≤ 255) ∧
    ((∀ c ∈ (sanitize_filename "a.txt").data,
      c ≠ '/' ∧ c ≠ '\\' ∧ dangerChar c = false ∧ ctrlRangeChar c = false) ∧
    sanitize_filename "a.txt" ≠ "" ∧ sanitize_filename "a.txt" ≠ "." ∧
    sanitize_filename "a.txt" ≠ ".." ∧
    (sanitize_filename "a.txt").length ≤ 255 ∧
    sanitize_filename "../../etc/passwd" = "passwd") :=
  ⟨by decide, sanitize_filename_spec "a.txt" (by decide)⟩

/-! ## File signatures and mask validation (security.py)

Byte strings are embedded as lists of naturals. -/

/-- The PNG signature 89 50 4E 47 0D 0A 1A 0A. -/
def pngSignature : List ℕ := [137, 80, 78, 71, 13, 10, 26, 10]

/-- The JPEG signature FF D8 FF. -/
def jpegSignature : List ℕ := [255, 216, 255]

/-- bytes.startswith. -/
def bytesStart (l sig : List ℕ) : Bool :=
  decide (l.take sig.length = sig)

/-- The ordered signature table IMAGE_SIGNATURES of validate_image_file
(a Python dict iterated in insertion order). -/
def IMAGE_SIGNATURES : List (String × List ℕ) :=
  [("png", pngSignature), ("jpeg", jpegSignature), ("jpg", jpegSignature)]

/-- validate_file_signature: at least 16 bytes are required, then the
first table entry whose signature is a leading byte match wins. -/
def validate_file_signature (file_data : List ℕ)
    (expected_signatures : List (String × List ℕ)) : Option String :=
  if file_data.length < 16 then none
  else (expected_signatures.find? (fun p => bytesStart file_data p.2)).map Prod.fst

/-- Claim C5: the signature detector returns "png" for inputs of at
least 16 bytes starting with the PNG signature, "jpeg" for inputs of
at least 16 bytes starting with FF D8 FF, and none both for inputs
shorter than 16 bytes and for inputs matching no signature of the
table. -/
theorem validate_file_signature_spec (file_data : List ℕ) :
    (16 ≤ file_data.length → bytesStart file_data pngSignature = true →
      validate_file_signature file_data IMAGE_SIGNATURES = some "png") ∧
    (16 ≤ file_data.length → bytesStart file_data jpegSignature = true →
      validate_file_signature file_data IMAGE_SIGNATURES = some "jpeg") ∧
    (file_data.length < 16 → validate_file_signature file_data IMAGE_SIGNATURES = none) ∧
    ((∀ p ∈ IMAGE_SIGNATURES, bytesStart file_data p.2 = false) →
      validate_file_signature file_data IMAGE_SIGNATURES = none) := by
  refine ⟨?_, ?_, ?_, ?_⟩
  · intro hlen hpng
    unfold validate_file_signature
    rw [if_neg (by omega)]
    unfold IMAGE_SIGNATURES
    simp [List.find?, hpng]
  · intro hlen hjpeg
    unfold validate_file_signature
    rw [if_neg (by omega)]
    have hnotpng : bytesStart file_data pngSignature = false := by
      rw [Bool.eq_false_iff]
      intro hpng
      have h8 : file_data.take 8 = pngSignature := by
        have := of_decide_eq_true hpng
        simpa [pngSignature] using this
      have h3 : file_data.take 3 = jpegSignature := by
        have := of_decide_eq_true hjpeg
        simpa [jpegSignature] using this
      have hcontr := congrArg (List.take 3) h8
      rw [List.take_take] at hcontr
      simp only [show min 3 8 = 3 from rfl] at hcontr
      rw [h3] at hcontr
      exact absurd hcontr (by decide)
    unfold IMAGE_SIGNATURES
    simp [List.find?, hnotpng, hjpeg]
  · intro hlen
    unfold validate_file_signature
    rw [if_pos hlen]
  · intro hnone
    unfold validate_file_signature
    by_cases hlen : file_data.length < 16
    · rw [if_pos hlen]
    · rw [if_neg hlen]
      have : IMAGE_SIGNATURES.find? (fun p => bytesStart file_data p.2) = none := by
        rw [List.find?_eq_none]
        intro p hp
        rw [hnone p hp]
        simp
      rw [this]
      rfl

theorem validate_file_signature_spec_witness :
    (16 ≤ (pngSignature ++ List.replicate 8 0).length ∧
      validate_file_signature (pngSignature ++ List.replicate 8 0) IMAGE_SIGNATURES =
        some "png") ∧
    (16 ≤ (jpegSignature ++ List.replicate 13 0).length ∧
      validate_file_signature (jpegSignature ++ List.replicate 13 0) IMAGE_SIGNATURES =
        some "jpeg") ∧
    validate_file_signature [1, 2, 3] IMAGE_SIGNATURES = none ∧
    validate_file_signature (List.replicate 20 0) IMAGE_SIGNATURES = none :=
  ⟨⟨by decide, (validate_file_signature_spec _).1 (by decide) (by decide)⟩,
   ⟨by decide, (validate_file_signature_spec _).2.1 (by decide) (by decide)⟩,
   (validate_file_signature_spec _).2.2.1 (by decide),
   (validate_file_signature_spec _).2.2.2 (by decide)⟩

/-! ## Mask file validation (security.py, validate_mask_file)

The source rejects a wrong content type, a missing PNG signature and a
length below 33 bytes.  The remaining structural checks sit inside a
try statement whose blanket `except Exception` also catches the
InputValidationError raised for a bad IHDR tag, so that error is only
logged: the embedding returns it as a warning value instead of an
error.  The filename is used only for logging. -/

inductive PngWarning where
  | ihdrNotFound (detail : String)
  | noAlphaColorType (colorType : ℕ)
  deriving Repr, DecidableEq

/-- validate_mask_file with the control flow of the source, including
the swallowed IHDR error: after the three hard checks the function
always succeeds, reporting at most a warning. -/
def validate_mask_file (file_data : List ℕ) (content_type : String) :
    Except InputValidationError (List PngWarning) :=
  if content_type ≠ "image/png" then
    .error ⟨"Mask file must be PNG format with alpha channel", some "mask"⟩
  else if ¬ bytesStart file_data pngSignature then
    .error ⟨"Invalid PNG file signature", some "mask"⟩
  else if file_data.length < 33 then
    .error ⟨"PNG file too small to be valid", some "mask"⟩
  else if (file_data.drop 12).take 4 ≠ [73, 72, 68, 82] then
    .ok [.ihdrNotFound "Invalid PNG structure - IHDR chunk not found"]
  else if 25 < file_data.length ∧ file_data.getD 25 0 ∉ [4, 6] then
    .ok [.noAlphaColorType (file_data.getD 25 0)]
  else
    .ok []

/-- A 33-byte body with a valid PNG signature whose bytes [12:16] spell
"XHDR" instead of "IHDR". -/
def badIhdrMask : List ℕ :=
  pngSignature ++ [0, 0, 0, 13] ++ [88, 72, 68, 82] ++ List.replicate 17 0

/-- Claim C3 (code evaluation at the failing input): a PNG-signed,
33-byte mask whose bytes [12:16] are not "IHDR" is accepted by
validate_mask_file — the InputValidationError raised for the bad IHDR
tag is caught by the function's own blanket exception handler and only
logged — although the claim (and the spec) say such input is
rejected. -/
theorem validate_mask_file_ihdr_swallowed :
    (validate_mask_file badIhdrMask "image/png").isOk = true ∧
    validate_mask_file badIhdrMask "image/png" =
      .ok [.ihdrNotFound "Invalid PNG structure - IHDR chunk not found"] ∧
    (badIhdrMask.drop 12).take 4 ≠ [73, 72, 68, 82] ∧
    bytesStart badIhdrMask pngSignature = true ∧
    badIhdrMask.length = 33 :=
  ⟨rfl, rfl, by decide, by decide, by decide⟩

/-- Companion fact for claim C3: the three hard checks of
validate_mask_file do reject as the claim states — a non-PNG content
type, a missing PNG signature, and a length below 33 bytes each
produce a mask-field error; and a color type outside {4, 6} alone
never causes an error. -/
theorem validate_mask_file_hard_checks (file_data : List ℕ) (content_type : String) :
    (content_type ≠ "image/png" →
      validate_mask_file file_data content_type =
        .error ⟨"Mask file must be PNG format with alpha channel", some "mask"⟩) ∧
    (bytesStart file_data pngSignature = false →
      validate_mask_file file_data "image/png" =
        .error ⟨"Invalid PNG file signature", some "mask"⟩) ∧
    (bytesStart file_data pngSignature = true → file_data.length < 33 →
      validate_mask_file file_data "image/png" =
        .error ⟨"PNG file too small to be valid", some "mask"⟩) ∧
    (bytesStart file_data pngSignature = true → 33 ≤ file_data.length →
      (validate_mask_file file_data "image/png").isOk = true) := by
  refine ⟨?_, ?_, ?_, ?_⟩
  · intro h
    unfold validate_mask_file
    rw [if_pos h]
  · intro h
    unfold validate_mask_file
    rw [if_neg (by simp), if_pos (by simp [h])]
  · intro hsig hlen
    unfold validate_mask_file
    rw [if_neg (by simp), if_neg (by simp [hsig]), if_pos hlen]
  · intro hsig hlen
    unfold validate_mask_file
    rw [if_neg (by simp), if_neg (by simp [hsig]), if_neg (by omega)]
    by_cases h4 : (file_data.drop 12).take 4 ≠ [73, 72, 68, 82]
    · rw [if_pos h4]; rfl
    · rw [if_neg h4]
      by_cases h5 : 25 < file_data.length ∧ file_data.getD 25 0 ∉ [4, 6]
      · rw [if_pos h5]; rfl
      · rw [if_neg h5]; rfl

theorem validate_mask_file_hard_checks_witness :
    (("image/jpeg" : String) ≠ "image/png" ∧
      validate_mask_file [] "image/jpeg" =
        .error ⟨"Mask file must be PNG format with alpha channel", some "mask"⟩) ∧
    (bytesStart [1, 2, 3] pngSignature = false ∧
      validate_mask_file [1, 2, 3] "image/png" =
        .error ⟨"Invalid PNG file signature", some "mask"⟩) ∧
    (validate_mask_file pngSignature "image/png" =
      .error ⟨"PNG file too small to be valid", some "mask"⟩) :=
  ⟨⟨by decide, (validate_mask_file_hard_checks [] "image/jpeg").1 (by decide)⟩,
   ⟨by decide, (validate_mask_file_hard_checks [1, 2, 3] "image/jpeg").2.1 (by decide)⟩,
   (validate_mask_file_hard_checks pngSignature "image/jpeg").2.2.1 (by decide) (by decide)⟩

/-! ## Mask processing checks (services/image_processor.py) and the
pipeline mask-content check (inbound_validation.py)

Decoded images are embedded abstractly by the PIL attributes the source
reads: format, mode, width and height.  The PIL decoding itself is an
external collaborator; the embedded functions are the validation
prefixes of the source functions, whose encoding tail cannot fail on
these attributes. -/

structure PILImage where
  format : Option String
  mode : String
  width : ℕ
  height : ℕ
  deriving Repr, DecidableEq

/-- A plain fastapi HTTPException: a status code and a detail message,
with no field tag. -/
structure HTTPException where
  status_code : ℕ
  detail : String
  deriving Repr, DecidableEq

/-- The dimension-mismatch message of
ImageProcessor.validate_and_process_mask. -/
def maskDimMessage (w h a b : ℕ) : String :=
  "Mask dimensions " ++ toString w ++ "x" ++ toString h ++
    " must match image dimensions " ++ toString a ++ "x" ++ toString b

/-- Validation prefix of ImageProcessor.validate_and_process_mask:
format must be PNG, mode must be RGBA, LA or L, and the pixel
dimensions must equal the companion image dimensions; each failure is a
plain 422 HTTPException without a field tag. -/
def validate_and_process_mask (mask : PILImage) (image_size : ℕ × ℕ) :
    Except HTTPException Unit :=
  if mask.format ≠ some "PNG" then
    .error ⟨422, "Mask must be PNG format"⟩
  else if mask.mode ∉ ["RGBA", "LA", "L"] then
    .error ⟨422, "Mask must have transparency (alpha channel) or be grayscale"⟩
  else if (mask.width, mask.height) ≠ image_size then
    .error ⟨422, maskDimMessage mask.width mask.height image_size.1 image_size.2⟩
  else
    .ok ()

/-- Configuration of InboundValidator (environment defaults:
min dimension 256, max dimension 2048, strict mode on). -/
structure ValidatorConfig where
  min_image_dimension : ℕ
  max_image_dimension : ℕ
  strict_validation : Bool
  deriving Repr, DecidableEq

def defaultValidatorConfig : ValidatorConfig :=
  { min_image_dimension := 256, max_image_dimension := 2048, strict_validation := true }

/-- InboundValidator._validate_mask_content: the mask-side dimension
check of the validation pipeline.  It checks the color mode (strict
mode only) and that each mask dimension lies within
[min_image_dimension, max_image_dimension]; it never compares the mask
dimensions with the image dimensions. -/
def validate_mask_content (cfg : ValidatorConfig) (mask : PILImage) :
    Except InputValidationError Unit :=
  if mask.mode ∉ ["RGBA", "LA", "L", "P"] ∧ cfg.strict_validation then
    .error ⟨"Mask has invalid color mode: " ++ mask.mode ++ ". Expected RGBA, LA, L, or P",
      some "mask"⟩
  else if mask.width < cfg.min_image_dimension ∨ mask.height < cfg.min_image_dimension then
    .error ⟨"Mask too small: " ++ toString mask.width ++ "x" ++ toString mask.height ++
      " (minimum " ++ toString cfg.min_image_dimension ++ "x" ++
      toString cfg.min_image_dimension ++ ")", some "mask"⟩
  else if cfg.max_image_dimension < mask.width ∨ cfg.max_image_dimension < mask.height then
    .error ⟨"Mask too large: " ++ toString mask.width ++ "x" ++ toString mask.height ++
      " (maximum " ++ toString cfg.max_image_dimension ++ "x" ++
      toString cfg.max_image_dimension ++ ")", some "mask"⟩
  else
    .ok ()

/-- The 256x256 RGBA PNG mask of the claim, against a 512x512 image. -/
def mask256 : PILImage :=
  { format := some "PNG", mode := "RGBA", width := 256, height := 256 }

/-- Claim C6 counterexample: for a 512x512 image and a 256x256 mask the
validation pipeline mask-content check accepts the mask (256 lies
within the default [256, 2048] bounds and the pipeline never compares
mask and image dimensions), and the rejection instead comes from
ImageProcessor.validate_and_process_mask as a plain 422 HTTPException
carrying no field tag - against the claim, which places a field-tagged
rejection in the validation pipeline dimension stage. -/
theorem mask_dim_mismatch_not_in_pipeline :
    validate_mask_content defaultValidatorConfig mask256 = .ok () ∧
    validate_and_process_mask mask256 (512, 512) =
      .error ⟨422, maskDimMessage 256 256 512 512⟩ :=
  ⟨rfl, rfl⟩

/-- Claim C6 (amended): every decodable PNG mask of accepted color mode
whose pixel dimensions differ from the image dimensions is rejected
with a 422 error whose message names both dimension pairs; the check
lives in the image-processing stage (validate_and_process_mask), runs
after the validation pipeline, and its error carries no field tag. -/
theorem mask_dim_mismatch_rejected (mask : PILImage) (image_size : ℕ × ℕ)
    (hfmt : mask.format = some "PNG") (hmode : mask.mode ∈ ["RGBA", "LA", "L"])
    (hdim : (mask.width, mask.height) ≠ image_size) :
    validate_and_process_mask mask image_size =
      .error ⟨422, maskDimMessage mask.width mask.height image_size.1 image_size.2⟩ := by
  unfold validate_and_process_mask
  rw [if_neg (by simp [hfmt]), if_neg (by simp only [List.mem_cons] at hmode; simp; tauto), if_pos hdim]

theorem mask_dim_mismatch_rejected_witness :
    mask256.format = some "PNG" ∧ mask256.mode ∈ ["RGBA", "LA", "L"] ∧
    ((mask256.width, mask256.height) ≠ ((512, 512) : ℕ × ℕ)) ∧
    validate_and_process_mask mask256 (512, 512) =
      .error ⟨422, maskDimMessage 256 256 512 512⟩ :=
  ⟨rfl, by decide, by decide,
   mask_dim_mismatch_rejected mask256 (512, 512) rfl (by decide) (by decide)⟩

/-! ## Inpaint client error mapping (services/nanobobana_client.py)

In live (credentialed) mode NanoBananaClient.inpaint_image issues one
request and translates the network outcome.  The outcome is embedded
as either a timeout exception, a connection error, or a response with
status, content-type header, optional parsed JSON body, raw bytes, and
optional retry-after header; response.json() raising is embedded as an
absent body. -/

structure JsonBody where
  image : Option String
  error : Option String
  message : Option String
  deriving Repr, DecidableEq

structure UpstreamResponse where
  status_code : ℕ
  content_type : String
  body : Option JsonBody
  content : List ℕ
  retry_after : Option String
  deriving Repr, DecidableEq

inductive NetOutcome where
  | response (r : UpstreamResponse)
  | timeoutExc
  | requestErr
  deriving Repr, DecidableEq

/-- Stand-in for the external base64 decoder (Python stdlib, an
external collaborator): the decoded value itself never matters to the
claims, only which branch produced it. -/
def b64decode (payload : String) : List ℕ :=
  payload.data.map Char.toNat

/-- Python str.startswith, evaluated on the character data. -/
def strStarts (s pre : String) : Bool :=
  decide (s.data.take pre.data.length = pre.data)

/-- NanoBananaClient._extract_error_message:
json.get("error", json.get("message", str(status))) with the fallback
"HTTP {status}" when the body is not JSON. -/
def extract_error_message (r : UpstreamResponse) : String :=
  match r.body with
  | some j => j.error.getD (j.message.getD (toString r.status_code))
  | none => "HTTP " ++ toString r.status_code

def timeoutMessage (timeout : ℕ) : String :=
  "Request to NanoBanana API timed out after " ++ toString timeout ++ " seconds"

def connectMessage : String :=
  "Failed to connect to NanoBanana API"

def invalidParamsMessage (m : String) : String :=
  "Invalid request parameters: " ++ m

def rateLimitMessage (ra : String) : String :=
  "NanoBanana API rate limit exceeded. Retry after " ++ ra ++ " seconds"

def unexpectedMessage (m : String) : String :=
  "Unexpected response from NanoBanana API: " ++ m

/-- The response translation of NanoBananaClient.inpaint_image in live
mode, following the source branch for branch.  A 200 response with an
unparseable body reaches the blanket exception handler and becomes a
500; every other failure is mapped as written in the source. -/
def inpaint_image_live (timeout : ℕ) (out : NetOutcome) : Except HTTPException (List ℕ) :=
  match out with
  | .timeoutExc => .error ⟨502, timeoutMessage timeout⟩
  | .requestErr => .error ⟨502, connectMessage⟩
  | .response r =>
    if r.status_code = 200 then
      if strStarts r.content_type "image/" then
        .ok r.content
      else
        match r.body with
        | some j =>
          match j.image with
          | some payload => .ok (b64decode payload)
          | none => .error ⟨502, "Invalid response format from NanoBanana API"⟩
        | none => .error ⟨500, "Internal server error during image processing"⟩
    else if r.status_code = 400 then
      .error ⟨422, invalidParamsMessage (extract_error_message r)⟩
    else if r.status_code = 401 then
      .error ⟨502, "Invalid NanoBanana API key"⟩
    else if r.status_code = 429 then
      .error ⟨502, rateLimitMessage (r.retry_after.getD "60")⟩
    else if 500 ≤ r.status_code then
      .error ⟨502, "NanoBanana API server error"⟩
    else
      .error ⟨502, unexpectedMessage (extract_error_message r)⟩

theorem timeoutMessage_head (timeout : ℕ) :
    (timeoutMessage timeout).data.head? = some 'R' := rfl

/-- Claim C8: in live mode the client maps each upstream outcome to
exactly one typed error: 400 to a 422 folding in the upstream message,
401 to 502, 429 to a 502 whose message carries the upstream retry-after
value, any status of at least 500 to 502, any other unexpected status
to 502, a 200 JSON body without an image field to 502, and a timeout
or connection failure each to a 502 with its own distinct message. -/
theorem nanobanana_error_mapping (timeout : ℕ) (r : UpstreamResponse) :
    (r.status_code = 400 → inpaint_image_live timeout (.response r) =
      .error ⟨422, invalidParamsMessage (extract_error_message r)⟩) ∧
    (r.status_code = 401 → inpaint_image_live timeout (.response r) =
      .error ⟨502, "Invalid NanoBanana API key"⟩) ∧
    (r.status_code = 429 → inpaint_image_live timeout (.response r) =
      .error ⟨502, rateLimitMessage (r.retry_after.getD "60")⟩) ∧
    (500 ≤ r.status_code → inpaint_image_live timeout (.response r) =
      .error ⟨502, "NanoBanana API server error"⟩) ∧
    (r.status_code ≠ 200 → r.status_code ≠ 400 → r.status_code ≠ 401 → r.status_code ≠ 429 →
      r.status_code < 500 → inpaint_image_live timeout (.response r) =
      .error ⟨502, unexpectedMessage (extract_error_message r)⟩) ∧
    (∀ j, r.status_code = 200 → strStarts r.content_type "image/" = false →
      r.body = some j → j.image = none → inpaint_image_live timeout (.response r) =
      .error ⟨502, "Invalid response format from NanoBanana API"⟩) ∧
    (inpaint_image_live timeout .timeoutExc = .error ⟨502, timeoutMessage timeout⟩) ∧
    (inpaint_image_live timeout .requestErr = .error ⟨502, connectMessage⟩) ∧
    (timeoutMessage timeout ≠ connectMessage) := by
  refine ⟨?_, ?_, ?_, ?_, ?_, ?_, rfl, rfl, ?_⟩
  · intro h
    simp [inpaint_image_live, h]
  · intro h
    simp [inpaint_image_live, h]
  · intro h
    simp [inpaint_image_live, h]
  · intro h
    have h200 : r.status_code ≠ 200 := by omega
    have h400 : r.status_code ≠ 400 := by omega
    have h401 : r.status_code ≠ 401 := by omega
    have h429 : r.status_code ≠ 429 := by omega
    simp [inpaint_image_live, h, h200, h400, h401, h429]
  · intro h200 h400 h401 h429 hlt
    have hno : ¬ (500 ≤ r.status_code) := by omega
    simp [inpaint_image_live, h200, h400, h401, h429, hno]
  · intro j h200 hct hbody himg
    simp [inpaint_image_live, h200, hct, hbody, himg]
  · intro h
    have hhead := timeoutMessage_head timeout
    rw [h] at hhead
    exact absurd hhead (by decide)

def resp429 : UpstreamResponse := ⟨429, "", none, [], some "30"⟩

def resp401 : UpstreamResponse := ⟨401, "", none, [], none⟩

def respNoImage : UpstreamResponse := ⟨200, "application/json", some ⟨none, none, none⟩, [], none⟩

theorem nanobanana_error_mapping_witness :
    (inpaint_image_live 120 (.response resp429) = .error ⟨502, rateLimitMessage "30"⟩) ∧
    (inpaint_image_live 120 (.response resp401) =
      .error ⟨502, "Invalid NanoBanana API key"⟩) ∧
    (inpaint_image_live 120 (.response respNoImage) =
      .error ⟨502, "Invalid response format from NanoBanana API"⟩) ∧
    timeoutMessage 120 ≠ connectMessage :=
  ⟨(nanobanana_error_mapping 120 resp429).2.2.1 rfl,
   (nanobanana_error_mapping 120 resp401).2.1 rfl,
   (nanobanana_error_mapping 120 respNoImage).2.2.2.2.2.1 ⟨none, none, none⟩ rfl (by decide) rfl rfl,
   (nanobanana_error_mapping 120 resp401).2.2.2.2.2.2.2.2⟩

/-! ## Endpoint control flow (api/inpaint.py, inpaint_image) and the
validation pipeline ordering (inbound_validation.py,
InboundValidator.validate_inpaint_request)

The handler is embedded as the sequencing of its stages; each callee
(the validator, the two image-processing calls, the external API call
and the response re-encoding) is a parameter whose outcome is given,
and the handler records which stages it executed.  An
InputValidationError escaping the validator is re-raised by the
handler as a plain 422 HTTPException with the same detail, as in the
source except-clause. -/

structure InpaintParams where
  strength : ℚ
  guidance_scale : ℚ
  seed : Option ℕ
  deriving Repr, DecidableEq

structure ValidationResult where
  prompt : String
  params : InpaintParams
  deriving Repr, DecidableEq

/-- InboundValidator.validate_inpaint_request: image check, mask check,
prompt validation and parameter validation in that order, short-circuiting
on the first InputValidationError and re-raising it. -/
def validate_inpaint_request (image mask : Except InputValidationError Unit)
    (prompt : Except InputValidationError String)
    (params : Except InputValidationError InpaintParams) :
    Except InputValidationError ValidationResult := do
  let _ ← image
  let _ ← mask
  let p ← prompt
  let ps ← params
  return ⟨p, ps⟩

inductive Step where
  | validation
  | imageProcessing
  | maskProcessing
  | apiCall
  | resultProcessing
  deriving Repr, DecidableEq

structure EndpointDeps where
  validation : Except InputValidationError ValidationResult
  processImage : Except HTTPException (List ℕ × (ℕ × ℕ))
  processMask : ℕ × ℕ → Except HTTPException (List ℕ)
  apiCall : List ℕ → List ℕ → Except HTTPException (List ℕ)
  createResponse : List ℕ → Except HTTPException (List ℕ)

/-- The stage sequencing of the /edit handler inpaint_image: validate,
process image, process mask against the image size, call the external
API, re-encode the result; the trace lists the stages that ran. -/
def inpaint_image_endpoint (d : EndpointDeps) :
    Except HTTPException (List ℕ) × List Step :=
  match d.validation with
  | .error e => (.error ⟨422, e.detail⟩, [Step.validation])
  | .ok _ =>
    match d.processImage with
    | .error e => (.error e, [Step.validation, Step.imageProcessing])
    | .ok (img, size) =>
      match d.processMask size with
      | .error e => (.error e, [Step.validation, Step.imageProcessing, Step.maskProcessing])
      | .ok msk =>
        match d.apiCall img msk with
        | .error e =>
          (.error e,
            [Step.validation, Step.imageProcessing, Step.maskProcessing, Step.apiCall])
        | .ok result =>
          match d.createResponse result with
          | .error e =>
            (.error e,
              [Step.validation, Step.imageProcessing, Step.maskProcessing, Step.apiCall,
                Step.resultProcessing])
          | .ok out =>
            (.ok out,
              [Step.validation, Step.imageProcessing, Step.maskProcessing, Step.apiCall,
                Step.resultProcessing])

/-- Claim C10: when the validation pipeline raises an
InputValidationError, the handler performs no image processing, no mask
processing and no external API call, and the error surfaces as the 422
response; moreover the pipeline itself propagates the first failing
check unchanged. -/
theorem inpaint_endpoint_validation_atomic (d : EndpointDeps) (e : InputValidationError)
    (h : d.validation = .error e) :
    inpaint_image_endpoint d = (.error ⟨422, e.detail⟩, [Step.validation]) ∧
    Step.imageProcessing ∉ (inpaint_image_endpoint d).2 ∧
    Step.maskProcessing ∉ (inpaint_image_endpoint d).2 ∧
    Step.apiCall ∉ (inpaint_image_endpoint d).2 ∧
    (∀ (mask : Except InputValidationError Unit)
        (prompt : Except InputValidationError String)
        (params : Except InputValidationError InpaintParams),
      validate_inpaint_request (.error e) mask prompt params = .error e) := by
  have hrun : inpaint_image_endpoint d = (.error ⟨422, e.detail⟩, [Step.validation]) := by
    unfold inpaint_image_endpoint
    rw [h]
  refine ⟨hrun, ?_, ?_, ?_, ?_⟩
  · rw [hrun]; simp
  · rw [hrun]; simp
  · rw [hrun]; simp
  · intro mask prompt params
    rfl

theorem inpaint_endpoint_validation_atomic_witness :
    inpaint_image_endpoint
      ⟨.error ⟨"Prompt cannot be empty", some "prompt"⟩, .ok ([], (512, 512)),
        fun _ => .ok [], fun _ _ => .ok [], fun _ => .ok []⟩ =
      (.error ⟨422, "Prompt cannot be empty"⟩, [Step.validation]) ∧
    Step.apiCall ∉ (inpaint_image_endpoint
      ⟨.error ⟨"Prompt cannot be empty", some "prompt"⟩, .ok ([], (512, 512)),
        fun _ => .ok [], fun _ _ => .ok [], fun _ => .ok []⟩).2 :=
  ⟨(inpaint_endpoint_validation_atomic _ _ rfl).1,
   (inpaint_endpoint_validation_atomic _ ⟨"Prompt cannot be empty", some "prompt"⟩ rfl).2.2.2.1⟩

end Milka
